import Mathlib

/-!
Verification development for the GameLauncher remote-catalog pipeline.

The definitions below are a shallow embedding of:
- `src/utils/schemaValidator.ts` (class SchemaValidator: XSS_PATTERNS,
  DANGEROUS_URL_PATTERNS, sanitizeString, validateAndSanitizeUrl,
  validateGame, validateCatalog),
- `src/services/storageService.ts` (cacheGames / getCachedGames / clearCache),
- `src/services/remoteCatalogService.ts` (unnamed/part_003: isValidUrl,
  validateGameSchema, fetchRemoteCatalogWithRetry, fetchCatalog).

Strings are `List Char`.  JavaScript regular expressions carry the `g` flag
and are tested with `RegExp.prototype.test`, which starts searching at the
regex object's mutable `lastIndex`, sets `lastIndex` to the match end on
success and resets it to 0 on failure.  Since the validator is a module-level
singleton, this per-pattern `lastIndex` is persistent state; it is modelled
explicitly (`ValidatorState`).  `Date.now()` is modelled by a `now : Nat`
parameter that is constant within one call.  The network (`fetch` plus the
timeout wrapper) is modelled as a function from the sent `If-None-Match`
header and the attempt number to an abstract response.
-/

set_option maxRecDepth 16000

namespace GameLauncher

/-- Lowercase one ASCII character; models the case-insensitive `i` regex flag
and WHATWG scheme/host lowercasing. -/
def lowerChar (c : Char) : Char :=
  if 'A' ≤ c ∧ c ≤ 'Z' then Char.ofNat (c.toNat + 32) else c

/-- The JavaScript regex `\w` class: `[A-Za-z0-9_]`. -/
def isWordChar (c : Char) : Bool :=
  c.isAlpha || c.isDigit || c == '_'

/-- The JavaScript regex `\s` class / `String.prototype.trim` whitespace
(ASCII part plus NBSP, LS, PS, FEFF; the source strings contain only
ASCII whitespace). -/
def isJsSpace (c : Char) : Bool :=
  c == ' ' || c == '\t' || c == '\n' || c == '\r' || c == '\u000B' ||
  c == '\u000C' || c == '\u00A0' || c == '\u2028' || c == '\u2029' ||
  c == '\uFEFF'

/-- `String.prototype.trim`. -/
def jsTrim (s : List Char) : List Char :=
  ((s.dropWhile isJsSpace).reverse.dropWhile isJsSpace).reverse

/-- `.replace(/[\x00-\x1F\x7F]/g, '')` — strip ASCII control characters. -/
def stripControl (s : List Char) : List Char :=
  s.filter (fun c => !(decide (c.toNat ≤ 31) || c.toNat == 127))

/-- Case-insensitive "the text `s` starts with the literal `lit`". -/
def startsWithCI : List Char → List Char → Bool
  | [], _ => true
  | _ :: _, [] => false
  | l :: ls, c :: cs => (lowerChar l == lowerChar c) && startsWithCI ls cs

/-- Index of the first case-insensitive occurrence of `lit` in `s`. -/
def findCIIdx (lit : List Char) : List Char → Option Nat
  | [] => if startsWithCI lit [] then some 0 else none
  | c :: cs =>
      if startsWithCI lit (c :: cs) then some 0
      else (findCIIdx lit cs).map (· + 1)

/-- Case-sensitive prefix test (`startsWith` on exact characters). -/
def startsWithSens : List Char → List Char → Bool
  | [], _ => true
  | _ :: _, [] => false
  | l :: ls, d :: ds => (l == d) && startsWithSens ls ds

/-- Case-sensitive substring containment, `String.prototype.includes`. -/
def containsSub (needle : List Char) : List Char → Bool
  | [] => needle.isEmpty
  | c :: cs => startsWithSens needle (c :: cs) || containsSub needle cs

/-- Length of the longest prefix of `s` whose characters satisfy `p`. -/
def takeWhileLen (p : Char → Bool) (s : List Char) : Nat :=
  (s.takeWhile p).length

/-- A matcher consumes a suffix of the subject string: it returns the length
of the (unique feasible) regex match anchored at the start of the suffix. -/
def Matcher : Type := List Char → Option Nat

/-- Matcher for a plain case-insensitive literal regex such as
`/javascript:/gi`. -/
def litM (lit : List Char) : Matcher := fun s =>
  if startsWithCI lit s then some lit.length else none

/-- Matcher for `/<tag\b[^<]*(?:(?!<\/tag>)<[^<]*)*<\/tag>/gi`
(the script / iframe / object / form XSS patterns).  Anchored at the
suffix start, such a regex matches iff the suffix starts with the opening
literal followed by a `\b` boundary and the closing literal occurs later;
the match then necessarily ends at the first occurrence of the closing
literal (every earlier `<` fails the negative lookahead, every non-`<` run
is consumed by `[^<]*`). -/
def tagPairM (openLit closeLit : List Char) : Matcher := fun s =>
  if startsWithCI openLit s then
    let rest := s.drop openLit.length
    let boundaryOk : Bool := match rest with
      | [] => true
      | c :: _ => !isWordChar c
    if boundaryOk then
      match findCIIdx closeLit rest with
      | some j => some (openLit.length + j + closeLit.length)
      | none => none
    else none
  else none

/-- Matcher for `/<embed\b[^>]*>/gi`: the match ends right after the first
`>` following the opening literal. -/
def embedM : Matcher := fun s =>
  if startsWithCI ("<embed".toList) s then
    let rest := s.drop 6
    let boundaryOk : Bool := match rest with
      | [] => true
      | c :: _ => !isWordChar c
    if boundaryOk then
      match rest.findIdx? (fun c => c == '>') with
      | some j => some (6 + j + 1)
      | none => none
    else none
  else none

/-- Matcher for `/on\w+\s*=/gi` (inline event-handler attributes).  Backtracking
is immaterial here: only the maximal `\w+` run can be followed by `\s*=`,
because both whitespace and `=` are non-word characters. -/
def onEventM : Matcher := fun s =>
  match s with
  | c1 :: c2 :: rest =>
      if lowerChar c1 == 'o' && lowerChar c2 == 'n' then
        let w := takeWhileLen isWordChar rest
        if w == 0 then none
        else
          let rest2 := rest.drop w
          let sp := takeWhileLen isJsSpace rest2
          match rest2.drop sp with
          | '=' :: _ => some (2 + w + sp + 1)
          | _ => none
      else none
  | _ => none

/-- Scan start positions `j, j+1, …` (bounded by `fuel`) for the leftmost
match of `m`; returns the end index of that match. -/
def findMatchFromAux (m : Matcher) (s : List Char) : Nat → Nat → Option Nat
  | _, 0 => none
  | j, fuel + 1 =>
      match m (s.drop j) with
      | some len => some (j + len)
      | none => findMatchFromAux m s (j + 1) fuel

/-- Leftmost match of `m` in `s` starting at position `≥ i`; returns the
match end.  Models how a global regex searches from `lastIndex`. -/
def findMatchFrom (m : Matcher) (s : List Char) (i : Nat) : Option Nat :=
  findMatchFromAux m s i (s.length + 1 - i)

/-- `RegExp.prototype.test` for a `g`-flagged regex with `lastIndex = li`:
on a match, `lastIndex` becomes the match end; on failure it resets to 0. -/
def jsTestG (m : Matcher) (s : List Char) (li : Nat) : Bool × Nat :=
  match findMatchFrom m s li with
  | some e => (true, e)
  | none => (false, 0)

/-- Run a list of stateful patterns over `s` in order with short-circuit on
the first hit, exactly as the `for … if (pattern.test(input)) return` loops
in `sanitizeString` / `validateAndSanitizeUrl`: patterns after the first
hit keep their previous `lastIndex`. -/
def testPatternsSC : List Matcher → List Nat → List Char → Bool × List Nat
  | [], _, _ => (false, [])
  | _ :: _, [], _ => (false, [])
  | m :: ms, li :: lis, s =>
      let r := jsTestG m s li
      if r.1 then (true, r.2 :: lis)
      else
        let t := testPatternsSC ms lis s
        (t.1, r.2 :: t.2)

/-- `SchemaValidator.XSS_PATTERNS`, in source order
(schemaValidator.ts lines 42–52). -/
def xssMatchers : List Matcher :=
  [ tagPairM ("<script".toList) ("</script>".toList)
  , tagPairM ("<iframe".toList) ("</iframe>".toList)
  , tagPairM ("<object".toList) ("</object>".toList)
  , embedM
  , tagPairM ("<form".toList) ("</form>".toList)
  , litM ("javascript:".toList)
  , litM ("vbscript:".toList)
  , litM ("data:text/html".toList)
  , onEventM ]

/-- `SchemaValidator.DANGEROUS_URL_PATTERNS`, in source order
(schemaValidator.ts lines 56–62). -/
def dangerMatchers : List Matcher :=
  [ litM ("javascript:".toList)
  , litM ("vbscript:".toList)
  , litM ("data:".toList)
  , litM ("file:".toList)
  , litM ("ftp:".toList) ]

/-- The mutable `lastIndex` fields of the singleton validator's regex
objects: 9 XSS patterns and 5 dangerous-URL patterns. -/
structure ValidatorState where
  xssIdx : List Nat
  urlIdx : List Nat
deriving DecidableEq, Repr

/-- Validator state right after module load (every `lastIndex` is 0). -/
def freshVS : ValidatorState :=
  ⟨List.replicate 9 0, List.replicate 5 0⟩

/-- Lowercase an ASCII string. -/
def lowerStr (s : List Char) : List Char := s.map lowerChar

/-! ### Model of the WHATWG URL constructor

`schemaValidator.ts` and `remoteCatalogService.ts` both call the platform
builtin `new URL(...)`.  The builtin is not repository code; it is modelled
here following the WHATWG URL Standard for the URL shapes this repository
handles: absolute URLs without percent-encoded hosts, IPv6 literals or
backslash path separators.  The essential behaviours for the claims are:
scheme/host lowercasing, mandatory non-empty host for special schemes,
`.`/`..` path-segment resolution, and canonical re-serialization. -/

/-- Parsed result of `new URL(input)`: the getters the validator reads. -/
structure UrlRec where
  protocol : List Char
  hostname : List Char
  port : List Char
  pathname : List Char
  search : List Char
  hash : List Char
  hasAuthority : Bool
deriving DecidableEq, Repr

/-- URL scheme characters after the first: `[A-Za-z0-9+.-]`. -/
def isSchemeChar (c : Char) : Bool :=
  c.isAlpha || c.isDigit || c == '+' || c == '-' || c == '.'

/-- The WHATWG special schemes. -/
def specialSchemes : List (List Char) :=
  ["http".toList, "https".toList, "ws".toList, "wss".toList,
   "ftp".toList, "file".toList]

/-- Default ports of the special schemes (dropped on serialization). -/
def defaultPortOf (scheme : List Char) : Option Nat :=
  if scheme == "http".toList then some 80
  else if scheme == "https".toList then some 443
  else if scheme == "ws".toList then some 80
  else if scheme == "wss".toList then some 443
  else if scheme == "ftp".toList then some 21
  else none

/-- Forbidden host code points (WHATWG); a host containing one makes the
constructor throw. -/
def forbiddenHostChar (c : Char) : Bool :=
  c == '\x00' || c == '\t' || c == '\n' || c == '\r' || c == ' ' || c == '#' ||
  c == '/' || c == ':' || c == '<' || c == '>' || c == '?' || c == '@' ||
  c == '[' || c == '\\' || c == ']' || c == '^' || c == '|'

/-- Strip the userinfo part (`user:pass@`) of an authority. -/
def hostPartOfAuthority (auth : List Char) : List Char :=
  if auth.contains '@' then (auth.reverse.takeWhile (fun c => c != '@')).reverse
  else auth

/-- Split `host[:port]` at the first `:`. -/
def splitPort (hp : List Char) : List Char × Option (List Char) :=
  match hp.findIdx? (fun c => c == ':') with
  | some i => (hp.take i, some (hp.drop (i + 1)))
  | none => (hp, none)

/-- Decimal digits to a number. -/
def digitsToNat (s : List Char) : Nat :=
  s.foldl (fun a c => a * 10 + (c.toNat - 48)) 0

/-- Parse and canonicalize an optional port; `none` result means the
constructor throws (non-digit or out-of-range port). -/
def parsePort (p : Option (List Char)) (scheme : List Char) :
    Option (List Char) :=
  match p with
  | none => some []
  | some d =>
      if d.isEmpty then some []
      else if d.all Char.isDigit then
        let v := digitsToNat d
        if v > 65535 then none
        else if defaultPortOf scheme == some v then some []
        else some ((Nat.repr v).toList)
      else none

/-- Split the part after the authority into path, `?search` and `#hash`. -/
def splitPathSearchHash (after : List Char) :
    List Char × List Char × List Char :=
  let path := after.takeWhile (fun c => !(c == '?' || c == '#'))
  let rest := after.drop path.length
  match rest with
  | '?' :: _ =>
      let sea := rest.takeWhile (fun c => c != '#')
      (path, sea, rest.drop sea.length)
  | '#' :: _ => (path, [], rest)
  | _ => (path, [], [])

/-- WHATWG single-dot path segment (incl. percent-encoded form). -/
def isSingleDotSeg (s : List Char) : Bool :=
  s == ['.'] || lowerStr s == "%2e".toList

/-- WHATWG double-dot path segment (incl. percent-encoded forms). -/
def isDoubleDotSeg (s : List Char) : Bool :=
  let l := lowerStr s
  l == "..".toList || l == ".%2e".toList || l == "%2e.".toList ||
  l == "%2e%2e".toList

/-- The URL Standard's path state, flushed segment by segment: `..` pops the
last segment, `.` is dropped, and at end-of-input `.`/`..` leave a trailing
empty segment. -/
def procSegs : List (List Char) → List (List Char) → List (List Char)
  | acc, [] => acc
  | acc, [lastSeg] =>
      if isDoubleDotSeg lastSeg then acc.dropLast ++ [[]]
      else if isSingleDotSeg lastSeg then acc ++ [[]]
      else acc ++ [lastSeg]
  | acc, seg :: rest =>
      if isDoubleDotSeg seg then procSegs acc.dropLast rest
      else if isSingleDotSeg seg then procSegs acc rest
      else procSegs (acc ++ [seg]) rest

/-- Serialize path segments as `/seg1/seg2/...`. -/
def joinSlash (segs : List (List Char)) : List Char :=
  segs.foldl (fun a s => a ++ '/' :: s) []

/-- Normalize a hierarchical path (dot-segment resolution); an absent path
serializes as `/` for special schemes. -/
def normalizePathFor (special : Bool) (pathPart : List Char) : List Char :=
  if pathPart.isEmpty then (if special then ['/'] else [])
  else
    let raw := if pathPart.head? == some '/' then pathPart.drop 1 else pathPart
    joinSlash (procSegs [] (List.splitOn '/' raw))

/-- Strip leading/trailing C0 controls and spaces (the constructor's input
preprocessing), plus interior tabs and newlines. -/
def preClean (s : List Char) : List Char :=
  let noEnds :=
    ((s.dropWhile (fun c => decide (c.toNat ≤ 32))).reverse.dropWhile
      (fun c => decide (c.toNat ≤ 32))).reverse
  noEnds.filter (fun c => !(c == '\t' || c == '\n' || c == '\r'))

/-- `new URL(input)`: `none` models the constructor throwing. -/
def parseUrl (input : List Char) : Option UrlRec :=
  let s := preClean input
  match s with
  | [] => none
  | c0 :: _ =>
    if !c0.isAlpha then none
    else
      let schemeRaw := s.takeWhile isSchemeChar
      match s.drop schemeRaw.length with
      | ':' :: rest =>
        let scheme := lowerStr schemeRaw
        let special := specialSchemes.contains scheme
        if special then
          let rest2 := rest.dropWhile (fun c => c == '/' || c == '\\')
          let auth := rest2.takeWhile
            (fun c => !(c == '/' || c == '?' || c == '#' || c == '\\'))
          let after := rest2.drop auth.length
          let (host0, portPart) := splitPort (hostPartOfAuthority auth)
          let host := lowerStr host0
          if host.isEmpty then none
          else if !(host.all (fun c => !forbiddenHostChar c)) then none
          else
            match parsePort portPart scheme with
            | none => none
            | some port =>
              let (pathPart, sea, frag) := splitPathSearchHash after
              some { protocol := scheme ++ [':'], hostname := host,
                     port := port,
                     pathname := normalizePathFor true pathPart,
                     search := sea, hash := frag, hasAuthority := true }
        else
          match rest with
          | '/' :: '/' :: rest2 =>
            let auth := rest2.takeWhile
              (fun c => !(c == '/' || c == '?' || c == '#'))
            let after := rest2.drop auth.length
            let (host0, portPart) := splitPort (hostPartOfAuthority auth)
            let host := lowerStr host0
            if !(host.all (fun c => !forbiddenHostChar c)) then none
            else
              match parsePort portPart scheme with
              | none => none
              | some port =>
                let (pathPart, sea, frag) := splitPathSearchHash after
                some { protocol := scheme ++ [':'], hostname := host,
                       port := port,
                       pathname := normalizePathFor false pathPart,
                       search := sea, hash := frag, hasAuthority := true }
          | _ =>
            let (pathPart, sea, frag) := splitPathSearchHash rest
            some { protocol := scheme ++ [':'], hostname := [], port := [],
                   pathname := pathPart, search := sea, hash := frag,
                   hasAuthority := false }
      | _ => none

/-- `URL.prototype.toString` (the canonical re-serialization). -/
def urlToString (u : UrlRec) : List Char :=
  u.protocol ++
  (if u.hasAuthority then
     "//".toList ++ u.hostname ++
       (if u.port.isEmpty then [] else ':' :: u.port)
   else []) ++
  u.pathname ++ u.search ++ u.hash

/-! ### Data model of raw (untrusted) catalog JSON -/

/-- JavaScript values as they can occur in a parsed catalog JSON field. -/
inductive JsVal
  | undef
  | nullV
  | boolV (b : Bool)
  | numV (n : Int)
  | strV (s : List Char)
deriving DecidableEq, Repr

/-- JavaScript truthiness of a field value. -/
def JsVal.truthy : JsVal → Bool
  | .undef => false
  | .nullV => false
  | .boolV b => b
  | .numV n => n != 0
  | .strV s => !s.isEmpty

/-- `typeof v === 'string'`. -/
def JsVal.isStr : JsVal → Bool
  | .strV _ => true
  | _ => false

/-- A raw game object: the fields `validateGame` reads (absent = `undef`). -/
structure RawGame where
  id : JsVal := JsVal.undef
  title : JsVal := JsVal.undef
  image : JsVal := JsVal.undef
  url : JsVal := JsVal.undef
  preferredOrientation : JsVal := JsVal.undef
  category : JsVal := JsVal.undef
  description : JsVal := JsVal.undef
  enabled : JsVal := JsVal.undef
  disabledReason : JsVal := JsVal.undef
deriving DecidableEq, Repr

/-- One element of the raw catalog array: an object or a primitive. -/
inductive JsGameInput
  | obj (g : RawGame)
  | prim (v : JsVal)
deriving DecidableEq, Repr

/-- Input of `validateCatalog`: an array or something else. -/
inductive JsCatalogInput
  | arr (gs : List JsGameInput)
  | nonArray
deriving DecidableEq, Repr

/-- A sanitized `Game` (src/types): required string fields plus optionals. -/
structure Game where
  id : List Char
  title : List Char
  image : List Char
  url : List Char
  preferredOrientation : Option (List Char) := none
  category : Option (List Char) := none
  description : Option (List Char) := none
  enabled : Option Bool := none
  disabledReason : Option (List Char) := none
deriving DecidableEq, Repr

/-- The `sanitizedGame` object under construction in `validateGame`
(fields may still be `undefined`). -/
structure PartialGame where
  id : Option (List Char) := none
  title : Option (List Char) := none
  image : Option (List Char) := none
  url : Option (List Char) := none
  preferredOrientation : Option (List Char) := none
  category : Option (List Char) := none
  description : Option (List Char) := none
  enabled : Option Bool := none
  disabledReason : Option (List Char) := none
deriving DecidableEq, Repr

/-- Cast the finished `sanitizedGame` to `Game` (`as Game`); when the entry
is valid the four required fields are present, so the defaults are
unreachable. -/
def toGame (p : PartialGame) : Game :=
  { id := p.id.getD [], title := p.title.getD [], image := p.image.getD [],
    url := p.url.getD [],
    preferredOrientation := p.preferredOrientation, category := p.category,
    description := p.description, enabled := p.enabled,
    disabledReason := p.disabledReason }

/-! ### SchemaValidator -/

/-- `sanitizeString` (schemaValidator.ts 219–249): XSS patterns are tested
on the raw value first (rejecting outright on a hit), then the value is
trimmed, stripped of control characters and truncated; an empty result is
also rejected.  Threads the XSS patterns' `lastIndex` state. -/
def sanitizeString (xs : List Nat) (input : JsVal) (maxLength : Nat) :
    Option (List Char) × List Nat :=
  match input with
  | .strV s =>
      let t := testPatternsSC xssMatchers xs s
      if t.1 then (none, t.2)
      else
        let cleaned := (stripControl (jsTrim s)).take maxLength
        if cleaned.isEmpty then (none, t.2) else (some cleaned, t.2)
  | _ => (none, xs)

/-- Result shape of `validateAndSanitizeUrl`. -/
structure UrlValidation where
  isValid : Bool
  errors : List (List Char)
  sanitizedUrl : Option (List Char)
deriving DecidableEq, Repr

/-- `SchemaValidator.ALLOWED_URL_PROTOCOLS`. -/
def allowedUrlProtocols : List (List Char) :=
  ["https:".toList, "http:".toList]

/-- `errors.join(', ')`. -/
def joinComma (es : List (List Char)) : List Char :=
  List.intercalate (", ".toList) es

/-- `validateAndSanitizeUrl` (schemaValidator.ts 254–329), threading the
dangerous-URL patterns' `lastIndex` state. -/
def validateAndSanitizeUrl (ds : List Nat) (url : JsVal) :
    UrlValidation × List Nat :=
  match url with
  | .strV s =>
      if (jsTrim s).isEmpty then
        ({ isValid := false, errors := ["URL must be a non-empty string".toList],
           sanitizedUrl := none }, ds)
      else
        let trimmed := jsTrim s
        let t := testPatternsSC dangerMatchers ds trimmed
        if t.1 then
          ({ isValid := false,
             errors := ["URL contains dangerous protocol or pattern".toList],
             sanitizedUrl := none }, t.2)
        else
          match parseUrl trimmed with
          | none =>
              ({ isValid := false, errors := ["Invalid URL format".toList],
                 sanitizedUrl := none }, t.2)
          | some u =>
              if !(allowedUrlProtocols.contains u.protocol) then
                ({ isValid := false,
                   errors := ["Unsupported protocol: ".toList ++ u.protocol ++
                              ". Allowed: https:, http:".toList],
                   sanitizedUrl := none }, t.2)
              else if u.hostname.isEmpty then
                ({ isValid := false,
                   errors := ["URL must have a valid hostname".toList],
                   sanitizedUrl := none }, t.2)
              else if u.hostname == "localhost".toList ||
                  startsWithSens ("127.".toList) u.hostname then
                ({ isValid := false,
                   errors := ["Localhost URLs are not allowed".toList],
                   sanitizedUrl := none }, t.2)
              else if containsSub ("..".toList) u.hostname ||
                  containsSub ("..".toList) u.pathname then
                ({ isValid := false,
                   errors :=
                     ["URLs with path traversal patterns are not allowed".toList],
                   sanitizedUrl := none }, t.2)
              else
                ({ isValid := true, errors := [],
                   sanitizedUrl := some (urlToString u) }, t.2)
  | _ =>
      ({ isValid := false, errors := ["URL must be a non-empty string".toList],
         sanitizedUrl := none }, ds)

/-- Result shape of `validateGame`. -/
structure GameValidation where
  isValid : Bool
  errors : List (List Char)
  sanitized : Option PartialGame
deriving DecidableEq, Repr

/-- The required-field loop of `validateGame` (fields in source order;
falsy → "Missing required field", truthy non-string → "must be a string"). -/
def requiredErrors (g : RawGame) : List (List Char) :=
  [("id".toList, g.id), ("title".toList, g.title),
   ("image".toList, g.image), ("url".toList, g.url)].filterMap
    (fun p =>
      if !p.2.truthy then
        some ("Missing required field: ".toList ++ p.1)
      else if !p.2.isStr then
        some ("Field ".toList ++ p.1 ++ " must be a string".toList)
      else none)

/-- `validateGame` (schemaValidator.ts 67–168).  Field checks run in source
order; the validator's mutable regex state is threaded in exactly that
order (id, title, image URL, game URL, category, description,
disabledReason). -/
def validateGame (vs : ValidatorState) (input : JsGameInput) :
    GameValidation × ValidatorState :=
  match input with
  | .prim _ =>
      ({ isValid := false, errors := ["Game must be an object".toList],
         sanitized := none }, vs)
  | .obj g =>
      let reqErrs := requiredErrors g
      if !reqErrs.isEmpty then
        ({ isValid := false, errors := reqErrs, sanitized := none }, vs)
      else
        let r1 := sanitizeString vs.xssIdx g.id 100
        let e1 : List (List Char) :=
          if r1.1.isNone then ["Invalid or unsafe ID".toList] else []
        let r2 := sanitizeString r1.2 g.title 200
        let e2 : List (List Char) :=
          if r2.1.isNone then ["Invalid or unsafe title".toList] else []
        let u1 := validateAndSanitizeUrl vs.urlIdx g.image
        let e3 : List (List Char) :=
          if !u1.1.isValid then
            ["Invalid image URL: ".toList ++ joinComma u1.1.errors] else []
        let u2 := validateAndSanitizeUrl u1.2 g.url
        let e4 : List (List Char) :=
          if !u2.1.isValid then
            ["Invalid game URL: ".toList ++ joinComma u2.1.errors] else []
        let orient : Option (List Char) × List (List Char) :=
          if g.preferredOrientation.truthy then
            match g.preferredOrientation with
            | .strV s =>
                if s == "portrait".toList || s == "landscape".toList then
                  (some s, [])
                else
                  (none,
                   ["Invalid preferredOrientation, must be \"portrait\" or \"landscape\"".toList])
            | _ =>
                (none,
                 ["Invalid preferredOrientation, must be \"portrait\" or \"landscape\"".toList])
          else (none, [])
        let rCat :=
          if g.category.truthy then
            let r := sanitizeString r2.2 g.category 50
            (r.1, (if r.1.isNone then
                     ["Invalid or unsafe category".toList] else []), r.2)
          else (none, [], r2.2)
        let rDesc :=
          if g.description.truthy then
            let r := sanitizeString rCat.2.2 g.description 1000
            (r.1, (if r.1.isNone then
                     ["Invalid or unsafe description".toList] else []), r.2)
          else (none, [], rCat.2.2)
        let enabledV : Option Bool :=
          match g.enabled with
          | .boolV b => some b
          | _ => none
        let rDis :=
          if g.disabledReason.truthy then
            sanitizeString rDesc.2.2 g.disabledReason 500
          else (none, rDesc.2.2)
        let errors := e1 ++ e2 ++ e3 ++ e4 ++ orient.2 ++ rCat.2.1 ++ rDesc.2.1
        let p : PartialGame :=
          { id := r1.1, title := r2.1,
            image := if u1.1.isValid then u1.1.sanitizedUrl else none,
            url := if u2.1.isValid then u2.1.sanitizedUrl else none,
            preferredOrientation := orient.1, category := rCat.1,
            description := rDesc.1, enabled := enabledV,
            disabledReason := rDis.1 }
        ({ isValid := errors.isEmpty, errors := errors, sanitized := some p },
         { xssIdx := rDis.2, urlIdx := u2.2 })

/-- The per-entry loop of `validateCatalog` (schemaValidator.ts 192–200):
valid entries contribute their sanitized form, invalid entries contribute
a `Game i: …` error line. -/
def catalogLoop (vs : ValidatorState) (idx : Nat) :
    List JsGameInput → List Game × List (List Char) × ValidatorState
  | [] => ([], [], vs)
  | g :: rest =>
      let r := validateGame vs g
      let t := catalogLoop r.2 (idx + 1) rest
      match r.1.sanitized, r.1.isValid with
      | some p, true => (toGame p :: t.1, t.2.1, t.2.2)
      | _, _ =>
          (t.1,
           ("Game ".toList ++ (Nat.repr idx).toList ++ ": ".toList ++
             joinComma r.1.errors) :: t.2.1,
           t.2.2)

/-- The per-entry validation results of one `validateCatalog` run, in order,
with the validator's regex state threaded between entries. -/
def entryResults (vs : ValidatorState) : List JsGameInput → List GameValidation
  | [] => []
  | g :: rest =>
      let r := validateGame vs g
      r.1 :: entryResults r.2 rest

/-- Result shape of `validateCatalog`. -/
structure CatalogValidation where
  isValid : Bool
  errors : List (List Char)
  sanitized : Option (List Game)
deriving DecidableEq, Repr

/-- `validateCatalog` (schemaValidator.ts 173–214). -/
def validateCatalog (vs : ValidatorState) (input : JsCatalogInput) :
    CatalogValidation × ValidatorState :=
  match input with
  | .nonArray =>
      ({ isValid := false, errors := ["Catalog must be an array".toList],
         sanitized := none }, vs)
  | .arr gs =>
      if gs.length > 1000 then
        ({ isValid := false,
           errors := ["Catalog too large: ".toList ++
                      (Nat.repr gs.length).toList ++
                      " items (max: 1000)".toList],
           sanitized := none }, vs)
      else
        let t := catalogLoop vs 0 gs
        ({ isValid := t.2.1.isEmpty, errors := t.2.1, sanitized := some t.1 },
         t.2.2)

/-! ### RemoteCatalogService and storageService

`remoteCatalogService.ts` (unnamed/part_003) and `storageService.ts`.
The persisted AsyncStorage keys are modelled as a record (`Store`): the
games blob (stored via `JSON.stringify` of already-validated games, so it
round-trips and is modelled directly as `List Game`), the cache timestamp,
the stored ETag and the last-fetch time.  The module-level singleton state
is the store together with the validator's regex state
(`ServiceState`).  The HTTP exchange performed by `fetchWithTimeout` for
the configured URL is abstracted as a function `net` from the sent
`If-None-Match` value and the attempt number to an outcome; a thrown
`fetch` (network failure / timeout abort) is `netError`. -/

/-- One HTTP exchange outcome for the catalog URL. -/
inductive NetOutcome
  | netError
  | resp (status : Nat) (contentType : Option (List Char))
      (etagHeader : Option (List Char)) (body : Option JsCatalogInput)
deriving DecidableEq, Repr

/-- The network behaviour: response by sent etag and attempt number. -/
def Net : Type := Option (List Char) → Nat → NetOutcome

/-- Errors thrown inside the service (tags for the `Error` objects the
source constructs or re-throws). -/
inductive Err
  | netErr
  | badJson
  | httpErr (status : Nat)
  | notJson
  | noCachedFor304
  | schemaFailed
  | invalidUrl
deriving DecidableEq, Repr

/-- The AsyncStorage keys used by the pipeline. -/
structure Store where
  cacheBlob : Option (List Game)
  cacheTimestamp : Option Nat
  etagStored : Option (List Char)
  lastFetch : Option Nat
deriving DecidableEq, Repr

/-- Singleton module state: persisted keys plus validator regex state. -/
structure ServiceState where
  store : Store
  vstate : ValidatorState
deriving DecidableEq, Repr

/-- `CACHE_EXPIRY_MS = 24 * 60 * 60 * 1000`. -/
def cacheExpiryMs : Nat := 24 * 60 * 60 * 1000

/-- `MAX_RETRY_ATTEMPTS`. -/
def maxRetryAttempts : Nat := 3

/-- `RETRY_DELAY_MS`. -/
def retryDelayMs : Nat := 1000

/-- `storageService.clearCache`: removes blob and timestamp keys. -/
def clearCacheStore (s : Store) : Store :=
  { s with cacheBlob := none, cacheTimestamp := none }

/-- `storageService.getCachedGames` (storageService.ts 23–53): both keys
present and age within 24h → the cached games; expired → clear both keys
and miss.  `Date.now() - parseInt(ts)` would be negative for a future
timestamp and hence not above the expiry; truncated `Nat` subtraction
yields 0 there, the same outcome. -/
def getCachedGames (now : Nat) (s : Store) : Option (List Game) × Store :=
  match s.cacheBlob, s.cacheTimestamp with
  | some gs, some ts =>
      if now - ts > cacheExpiryMs then (none, clearCacheStore s)
      else (some gs, s)
  | _, _ => (none, s)

/-- `storageService.cacheGames`: store blob and current timestamp. -/
def cacheGamesStore (now : Nat) (gs : List Game) (s : Store) : Store :=
  { s with cacheBlob := some gs, cacheTimestamp := some now }

/-- JavaScript `if (x)` / `x || undefined` on a string-or-null value. -/
def jsStrOpt (o : Option (List Char)) : Option (List Char) :=
  match o with
  | some s => if s.isEmpty then none else some s
  | none => none

/-- `ALLOWED_PROTOCOLS` of the service (HTTPS only). -/
def allowedProtocolsSvc : List (List Char) := ["https:".toList]

/-- `RemoteCatalogService.isValidUrl` (part_003 lines 35–56): parseable,
HTTPS protocol, non-empty hostname. -/
def isValidUrl (url : List Char) : Bool :=
  match parseUrl url with
  | none => false
  | some u => allowedProtocolsSvc.contains u.protocol && !u.hostname.isEmpty

/-- Which tier produced the result. -/
inductive CatalogSource
  | remote
  | cached
  | bundled
deriving DecidableEq, Repr

/-- `RemoteCatalogResult` (games, source, metadata).  `fetchTime` is
`Date.now() - startTime`, which is 0 under the single-instant clock. -/
structure RemoteCatalogResult where
  games : List Game
  source : CatalogSource
  fetchTime : Nat
  fromCache : Bool
  etagMeta : Option (List Char)
deriving DecidableEq, Repr

/-- `RemoteCatalogConfig`; `validateSchema` is carried but — exactly as in
the source — never read by `fetchCatalog`. -/
structure RemoteCatalogConfig where
  url : Option (List Char)
  fallbackToBundled : Bool
  validateSchema : Bool
deriving DecidableEq, Repr

/-- Observability instrumentation of one call: how many fetch attempts ran
and the inter-attempt delays inserted (ms). -/
structure FetchTrace where
  attempts : Nat
  delays : List Nat
deriving DecidableEq, Repr

/-- The body of one iteration of the retry loop in
`fetchRemoteCatalogWithRetry` (part_003 lines 104–161): 304 → cached games
or throw; non-2xx → throw `HTTP status`; missing/non-JSON content type →
throw; unparseable JSON body → throw; schema validation via
`validateGameSchema` (i.e. `validateCatalog`, mutating the singleton regex
state) → throw on failure, otherwise persist the new ETag (when truthy)
and the last-fetch time and return the sanitized games. -/
def attemptFetch (net : Net) (sentEtag : Option (List Char)) (now : Nat)
    (k : Nat) (st : ServiceState) : Except Err (List Game) × ServiceState :=
  match net sentEtag k with
  | .netError => (.error .netErr, st)
  | .resp status ct etagH body =>
      if status == 304 then
        let c := getCachedGames now st.store
        match c.1 with
        | some gs => (.ok gs, { st with store := c.2 })
        | none => (.error .noCachedFor304, { st with store := c.2 })
      else if !(decide (200 ≤ status) && decide (status ≤ 299)) then
        (.error (.httpErr status), st)
      else
        match ct with
        | none => (.error .notJson, st)
        | some ctv =>
            if !containsSub ("application/json".toList) ctv then
              (.error .notJson, st)
            else
              match body with
              | none => (.error .badJson, st)
              | some raw =>
                  let v := validateCatalog st.vstate raw
                  if v.1.isValid then
                    match v.1.sanitized with
                    | some games =>
                        let store1 := match jsStrOpt etagH with
                          | some e => { st.store with etagStored := some e }
                          | none => st.store
                        (.ok games,
                         { store := { store1 with lastFetch := some now },
                           vstate := v.2 })
                    | none =>
                        (.error .schemaFailed, { st with vstate := v.2 })
                  else (.error .schemaFailed, { st with vstate := v.2 })

/-- The retry loop: run the current attempt; on failure sleep
`RETRY_DELAY_MS` and try again while attempts remain, finally re-throwing
the most recent error. -/
def retryAux (net : Net) (sentEtag : Option (List Char)) (now : Nat)
    (attempt : Nat) (remaining : Nat) (st : ServiceState)
    (delays : List Nat) : Except Err (List Game) × ServiceState × FetchTrace :=
  match attemptFetch net sentEtag now attempt st with
  | (.ok gs, st') => (.ok gs, st', ⟨attempt, delays⟩)
  | (.error e, st') =>
      match remaining with
      | 0 => (.error e, st', ⟨attempt, delays⟩)
      | r + 1 =>
          retryAux net sentEtag now (attempt + 1) r st'
            (delays ++ [retryDelayMs])

/-- `fetchRemoteCatalogWithRetry` (part_003 lines 101–165): up to
`MAX_RETRY_ATTEMPTS` attempts starting at attempt 1. -/
def fetchRemoteCatalogWithRetry (net : Net) (sentEtag : Option (List Char))
    (now : Nat) (st : ServiceState) :
    Except Err (List Game) × ServiceState × FetchTrace :=
  retryAux net sentEtag now 1 (maxRetryAttempts - 1) st []

/-- The result built on each of the three bundled-catalog paths of
`fetchCatalog`: the bundled `games.json` array is cast (`as Game[]`) and
returned as-is. -/
def bundledResult (bundled : List Game) : RemoteCatalogResult :=
  { games := bundled, source := .bundled, fetchTime := 0, fromCache := false,
    etagMeta := none }

/-- `fetchCatalog` (part_003 lines 167–279).  `bundled` is the content of
the statically imported `games.json`.  Control flow: falsy URL → bundled;
invalid URL → bundled when `fallbackToBundled` else throw; otherwise read
the cache and stored etag, run the retry fetch, cache and return on
success, and on failure fall back to non-empty cached games, then to the
bundled catalog when enabled, finally re-throwing the fetch error.  The
outer `catch` only re-dispatches the inner throw on the same
`fallbackToBundled` test (the storage reads never throw), so it adds no
further behaviour. -/
def fetchCatalog (bundled : List Game) (net : Net) (now : Nat)
    (cfg : RemoteCatalogConfig) (σ : ServiceState) :
    Except Err RemoteCatalogResult × ServiceState × FetchTrace :=
  match cfg.url with
  | none => (.ok (bundledResult bundled), σ, ⟨0, []⟩)
  | some u =>
      if u.isEmpty then (.ok (bundledResult bundled), σ, ⟨0, []⟩)
      else if !isValidUrl u then
        if cfg.fallbackToBundled then (.ok (bundledResult bundled), σ, ⟨0, []⟩)
        else (.error .invalidUrl, σ, ⟨0, []⟩)
      else
        let c := getCachedGames now σ.store
        let storedEtag := c.2.etagStored
        match fetchRemoteCatalogWithRetry net (jsStrOpt storedEtag) now
            ⟨c.2, σ.vstate⟩ with
        | (.ok gs, σ2, tr) =>
            (.ok { games := gs, source := .remote, fetchTime := 0,
                   fromCache := false, etagMeta := jsStrOpt storedEtag },
             { σ2 with store := cacheGamesStore now gs σ2.store }, tr)
        | (.error e, σ2, tr) =>
            match c.1 with
            | some gs =>
                if gs.length > 0 then
                  (.ok { games := gs, source := .cached, fetchTime := 0,
                         fromCache := true, etagMeta := none }, σ2, tr)
                else if cfg.fallbackToBundled then
                  (.ok (bundledResult bundled), σ2, tr)
                else (.error e, σ2, tr)
            | none =>
                if cfg.fallbackToBundled then
                  (.ok (bundledResult bundled), σ2, tr)
                else (.error e, σ2, tr)

/-- View a sanitized `Game` back as raw JSON input (used to state that a
returned catalog would or would not survive `validateCatalog`). -/
def gameToRaw (g : Game) : RawGame :=
  { id := .strV g.id, title := .strV g.title, image := .strV g.image,
    url := .strV g.url,
    preferredOrientation := match g.preferredOrientation with
      | some s => .strV s
      | none => .undef,
    category := match g.category with
      | some s => .strV s
      | none => .undef,
    description := match g.description with
      | some s => .strV s
      | none => .undef,
    enabled := match g.enabled with
      | some b => .boolV b
      | none => .undef,
    disabledReason := match g.disabledReason with
      | some s => .strV s
      | none => .undef }

/-- A whole games list as raw catalog input. -/
def catalogToRaw (gs : List Game) : JsCatalogInput :=
  .arr (gs.map (fun g => .obj (gameToRaw g)))

/-! ### Concrete fixtures used by witnesses and counterexamples -/

/-- A well-formed sanitized game. -/
def exG : Game :=
  { id := "g1".toList, title := "Game".toList,
    image := "https://img.test/a.png".toList,
    url := "https://play.test/g1".toList }

/-- A distinguishable bundled game. -/
def exB : Game := { exG with id := "b1".toList }

/-- Empty persisted storage. -/
def exStore0 : Store := ⟨none, none, none, none⟩

/-- Boot state: empty storage, fresh validator. -/
def exSt0 : ServiceState := ⟨exStore0, freshVS⟩

/-- Storage holding a cached catalog written at time 0. -/
def exStoreCache : Store := ⟨some [exG], some 0, none, none⟩

/-- State with a valid cached catalog. -/
def exStCache : ServiceState := ⟨exStoreCache, freshVS⟩

/-- A network that always fails (connection error / timeout). -/
def netFailEx : Net := fun _ _ => .netError

/-- A server that always answers 304 Not Modified. -/
def net304Ex : Net := fun _ _ => .resp 304 none none none

/-- A raw remote entry that sanitizes to `exG`. -/
def okRawEx : RawGame :=
  { id := .strV ("g1".toList), title := .strV ("Game".toList),
    image := .strV ("https://img.test/a.png".toList),
    url := .strV ("https://play.test/g1".toList) }

/-- `okRawEx` with the required `title` field absent. -/
def noTitleRawEx : RawGame := { okRawEx with title := .undef }

/-! ### Shared helper lemmas -/

/-- After a failed retry chain, `fetchCatalog` resolves the fallback chain:
non-empty cached games, else bundled when enabled, else re-throw. -/
theorem fetchCatalog_after_fetch_failure (bundled : List Game) (net : Net)
    (now : Nat) (cfg : RemoteCatalogConfig) (u : List Char)
    (σ : ServiceState) (cached : Option (List Game)) (st1 : Store) (e : Err)
    (σ2 : ServiceState) (tr : FetchTrace)
    (hu : cfg.url = some u) (hne : u.isEmpty = false)
    (hv : isValidUrl u = true)
    (hc : getCachedGames now σ.store = (cached, st1))
    (hf : fetchRemoteCatalogWithRetry net (jsStrOpt st1.etagStored) now
            ⟨st1, σ.vstate⟩ = (.error e, σ2, tr)) :
    (∀ gs, cached = some gs → gs ≠ [] →
        fetchCatalog bundled net now cfg σ =
          (.ok { games := gs, source := .cached, fetchTime := 0,
                 fromCache := true, etagMeta := none }, σ2, tr)) ∧
    ((cached = none ∨ cached = some []) → cfg.fallbackToBundled = true →
        fetchCatalog bundled net now cfg σ =
          (.ok (bundledResult bundled), σ2, tr)) ∧
    ((cached = none ∨ cached = some []) → cfg.fallbackToBundled = false →
        fetchCatalog bundled net now cfg σ = (.error e, σ2, tr)) := by
  refine ⟨?_, ?_, ?_⟩
  · intro gs hgs hne'
    subst hgs
    unfold fetchCatalog
    rw [hu]
    simp [hne, hv, hc, hf, List.length_pos.mpr hne']
  · intro hcc hb
    rcases hcc with h | h <;> subst h <;>
      (unfold fetchCatalog; rw [hu]; simp [hne, hv, hc, hf, hb])
  · intro hcc hb
    rcases hcc with h | h <;> subst h <;>
      (unfold fetchCatalog; rw [hu]; simp [hne, hv, hc, hf, hb])

/-- `entryResults` yields one validation result per catalog entry. -/
theorem entryResults_length (gs : List JsGameInput) :
    ∀ vs : ValidatorState, (entryResults vs gs).length = gs.length := by
  induction gs with
  | nil => intro vs; simp [entryResults]
  | cons g rest ih => intro vs; simp [entryResults, ih]

/-- If some per-entry result of the threaded run is invalid, the catalog
loop accumulates at least one error line. -/
theorem catalogLoop_errors_of_invalid (gs : List JsGameInput) :
    ∀ (vs : ValidatorState) (idx : Nat) (v : GameValidation),
      v ∈ entryResults vs gs → v.isValid = false →
      (catalogLoop vs idx gs).2.1 ≠ [] := by
  induction gs with
  | nil => intro vs idx v hv; simp [entryResults] at hv
  | cons g rest ih =>
      intro vs idx v hv hinv
      simp only [entryResults, List.mem_cons] at hv
      simp only [catalogLoop]
      rcases hv with hv | hv
      · subst hv
        cases hs : (validateGame vs g).1.sanitized with
        | none => simp [hs]
        | some p => simp [hs, hinv]
      · have hrest := ih (validateGame vs g).2 (idx + 1) v hv hinv
        cases hs : (validateGame vs g).1.sanitized with
        | none => simp [hs]
        | some p =>
            cases hval : (validateGame vs g).1.isValid with
            | false => simp [hs, hval]
            | true =>
                simp only [hs, hval]
                exact hrest

/-! ### C1 — fallback order cached → bundled → raise -/

/-- C1: for every call with a configured (truthy, valid) URL whose remote
fetch after retries fails with error `e`, the fallback resolves in order:
a non-empty cached catalog is returned tagged `source="cached"`; otherwise
the bundled catalog is returned tagged `source="bundled"` when
`fallbackToBundled` is set; otherwise the call raises `e`, the error of
the fetch chain. -/
theorem c1_fallback_order (bundled : List Game) (net : Net) (now : Nat)
    (cfg : RemoteCatalogConfig) (u : List Char) (σ : ServiceState)
    (cached : Option (List Game)) (st1 : Store) (e : Err)
    (σ2 : ServiceState) (tr : FetchTrace)
    (hu : cfg.url = some u) (hne : u.isEmpty = false)
    (hv : isValidUrl u = true)
    (hc : getCachedGames now σ.store = (cached, st1))
    (hf : fetchRemoteCatalogWithRetry net (jsStrOpt st1.etagStored) now
            ⟨st1, σ.vstate⟩ = (.error e, σ2, tr)) :
    (∀ gs, cached = some gs → gs ≠ [] →
        fetchCatalog bundled net now cfg σ =
          (.ok { games := gs, source := .cached, fetchTime := 0,
                 fromCache := true, etagMeta := none }, σ2, tr)) ∧
    ((cached = none ∨ cached = some []) → cfg.fallbackToBundled = true →
        fetchCatalog bundled net now cfg σ =
          (.ok (bundledResult bundled), σ2, tr)) ∧
    ((cached = none ∨ cached = some []) → cfg.fallbackToBundled = false →
        fetchCatalog bundled net now cfg σ = (.error e, σ2, tr)) :=
  fetchCatalog_after_fetch_failure bundled net now cfg u σ cached st1 e σ2
    tr hu hne hv hc hf

/-- Witness for C1 at a concrete state: valid cache, dead network,
bundled fallback disabled → the cached games are returned. -/
theorem c1_fallback_order_witness :
    fetchCatalog [exB] netFailEx 0
        ⟨some ("https://x.y/c".toList), false, true⟩ exStCache =
      (.ok { games := [exG], source := .cached, fetchTime := 0,
             fromCache := true, etagMeta := none }, exStCache,
       ⟨3, [1000, 1000]⟩) :=
  (c1_fallback_order [exB] netFailEx 0
    ⟨some ("https://x.y/c".toList), false, true⟩ ("https://x.y/c".toList)
    exStCache (some [exG]) exStoreCache .netErr exStCache ⟨3, [1000, 1000]⟩
    rfl rfl rfl rfl rfl).1 [exG] rfl (List.cons_ne_nil _ _)

/-! ### C4 — retry policy -/

/-- A server answering 404 on the first attempt and a good catalog
afterwards. -/
def net404Ex : Net := fun _ k =>
  if k == 1 then .resp 404 none none none
  else .resp 200 (some ("application/json".toList)) (some ("v1".toList))
    (some (.arr [.obj okRawEx]))

/-- C4 counterexample: a 4xx response IS retried.  Against `net404Ex` the
first attempt fails with HTTP 404, yet the loop performs a second attempt
(after a 1s delay) which succeeds — contradicting "a 4xx HTTP response is
not retried". -/
theorem c4_counterexample :
    net404Ex none 1 = .resp 404 none none none ∧
    (fetchRemoteCatalogWithRetry net404Ex none 0 exSt0).2.2 =
      ⟨2, [1000]⟩ ∧
    (fetchRemoteCatalogWithRetry net404Ex none 0 exSt0).1 = .ok [exG] :=
  ⟨rfl, rfl, rfl⟩

/-- C4 amended: the loop retries every failure alike — 4xx, 5xx, network
errors, non-JSON and schema-validation failures — up to 3 total attempts
with a fixed 1s inter-attempt delay, raising the error of the last
attempt on exhaustion, and stops at the first success. -/
theorem c4_amended_retry_policy :
    (∀ (net : Net) (sentEtag : Option (List Char)) (now : Nat)
       (σ σ1 σ2 σ3 : ServiceState) (e1 e2 e3 : Err),
        attemptFetch net sentEtag now 1 σ = (.error e1, σ1) →
        attemptFetch net sentEtag now 2 σ1 = (.error e2, σ2) →
        attemptFetch net sentEtag now 3 σ2 = (.error e3, σ3) →
        fetchRemoteCatalogWithRetry net sentEtag now σ =
          (.error e3, σ3, ⟨3, [1000, 1000]⟩)) ∧
    (∀ (net : Net) (sentEtag : Option (List Char)) (now : Nat)
       (σ σ1 : ServiceState) (gs : List Game),
        attemptFetch net sentEtag now 1 σ = (.ok gs, σ1) →
        fetchRemoteCatalogWithRetry net sentEtag now σ =
          (.ok gs, σ1, ⟨1, []⟩)) := by
  constructor
  · intro net et now σ σ1 σ2 σ3 e1 e2 e3 h1 h2 h3
    simp [fetchRemoteCatalogWithRetry, maxRetryAttempts, retryAux, h1, h2,
      h3, retryDelayMs]
  · intro net et now σ σ1 gs h1
    simp [fetchRemoteCatalogWithRetry, maxRetryAttempts, retryAux, h1]

/-- Witness for C4 (amended): three network failures raise the last error
after exactly 3 attempts and two 1s delays. -/
theorem c4_amended_retry_policy_witness :
    fetchRemoteCatalogWithRetry netFailEx none 0 exSt0 =
      (.error .netErr, exSt0, ⟨3, [1000, 1000]⟩) :=
  c4_amended_retry_policy.1 netFailEx none 0 exSt0 exSt0 exSt0 exSt0
    .netErr .netErr .netErr rfl rfl rfl

/-! ### C8 — invalid-URL path vs fetch-failure path -/

/-- C8 counterexample: with the same non-empty cache, an invalid
(non-HTTPS) catalog URL resolves to the BUNDLED catalog (skipping the
cached tier, without any fetch attempt), while a fetch failure with a
valid URL resolves to the CACHED catalog; with bundled fallback disabled
the invalid URL raises even though a non-empty cache exists.  The two
paths are therefore not equal. -/
theorem c8_counterexample :
    (fetchCatalog [exB] netFailEx 0
        ⟨some ("http://x.y/c".toList), true, true⟩ exStCache).1 =
      .ok (bundledResult [exB]) ∧
    (fetchCatalog [exB] netFailEx 0
        ⟨some ("https://x.y/c".toList), true, true⟩ exStCache).1 =
      .ok { games := [exG], source := .cached, fetchTime := 0,
            fromCache := true, etagMeta := none } ∧
    (fetchCatalog [exB] netFailEx 0
        ⟨some ("http://x.y/c".toList), true, true⟩ exStCache).2.2.attempts
      = 0 ∧
    (fetchCatalog [exB] netFailEx 0
        ⟨some ("http://x.y/c".toList), false, true⟩ exStCache).1 =
      .error .invalidUrl ∧
    (bundledResult [exB]).source ≠ CatalogSource.cached :=
  ⟨rfl, rfl, rfl, rfl, by decide⟩

/-- C8 amended: a syntactically invalid or non-HTTPS catalog URL does NOT
behave like a fetch failure: it skips the cached tier entirely and
resolves directly to the bundled catalog when `fallbackToBundled` is set,
otherwise raising an invalid-URL error — with no fetch attempt and the
service state untouched. -/
theorem c8_amended_invalid_url_path (bundled : List Game) (net : Net)
    (now : Nat) (cfg : RemoteCatalogConfig) (u : List Char)
    (σ : ServiceState)
    (hu : cfg.url = some u) (hne : u.isEmpty = false)
    (hv : isValidUrl u = false) :
    fetchCatalog bundled net now cfg σ =
      (if cfg.fallbackToBundled then
         (.ok (bundledResult bundled), σ, ⟨0, []⟩)
       else (.error .invalidUrl, σ, ⟨0, []⟩)) := by
  unfold fetchCatalog
  rw [hu]
  simp [hne, hv]

/-- Witness for C8 (amended) at a concrete invalid URL. -/
theorem c8_amended_invalid_url_path_witness :
    fetchCatalog [exB] netFailEx 0
        ⟨some ("http://x.y/c".toList), true, true⟩ exStCache =
      (.ok (bundledResult [exB]), exStCache, ⟨0, []⟩) := by
  have h := c8_amended_invalid_url_path [exB] netFailEx 0
    ⟨some ("http://x.y/c".toList), true, true⟩ ("http://x.y/c".toList)
    exStCache rfl rfl rfl
  simpa using h

/-! ### C10 — 24h cache expiry silently skips the cached tier -/

/-- C10: a cache entry older than 24h is dropped: `getCachedGames` clears
the blob and timestamp and reports a miss, so a `fetchCatalog` call whose
remote fetch fails (network dead) more than 24h after the last successful
fetch skips the cached tier and resolves to the bundled catalog or
raises, although a cached catalog was persisted. -/
theorem c10_cache_expiry :
    (∀ (gs : List Game) (ts now : Nat) (s : Store),
        s.cacheBlob = some gs → s.cacheTimestamp = some ts →
        now - ts > cacheExpiryMs →
        getCachedGames now s =
          (none, { s with cacheBlob := none, cacheTimestamp := none })) ∧
    (∀ (bundled : List Game) (now : Nat) (cfg : RemoteCatalogConfig)
       (u : List Char) (σ : ServiceState) (gs : List Game) (ts : Nat),
        cfg.url = some u → u.isEmpty = false → isValidUrl u = true →
        σ.store.cacheBlob = some gs → σ.store.cacheTimestamp = some ts →
        now - ts > cacheExpiryMs →
        fetchCatalog bundled (fun _ _ => .netError) now cfg σ =
          (if cfg.fallbackToBundled then
             (.ok (bundledResult bundled),
              ⟨clearCacheStore σ.store, σ.vstate⟩, ⟨3, [1000, 1000]⟩)
           else
             (.error .netErr, ⟨clearCacheStore σ.store, σ.vstate⟩,
              ⟨3, [1000, 1000]⟩))) := by
  constructor
  · intro gs ts now s hb ht hexp
    unfold getCachedGames
    rw [hb, ht]
    simp [hexp, clearCacheStore]
  · intro bundled now cfg u σ gs ts hu hne hv hb ht hexp
    have hc : getCachedGames now σ.store = (none, clearCacheStore σ.store) := by
      unfold getCachedGames
      rw [hb, ht]
      simp [hexp, clearCacheStore]
    have hf : fetchRemoteCatalogWithRetry (fun _ _ => .netError)
        (jsStrOpt (clearCacheStore σ.store).etagStored) now
        ⟨clearCacheStore σ.store, σ.vstate⟩ =
        (.error .netErr, ⟨clearCacheStore σ.store, σ.vstate⟩,
         ⟨3, [1000, 1000]⟩) := by
      simp [fetchRemoteCatalogWithRetry, maxRetryAttempts, retryAux,
        attemptFetch, retryDelayMs]
    have base := fetchCatalog_after_fetch_failure bundled
      (fun _ _ => .netError) now cfg u σ none (clearCacheStore σ.store)
      .netErr ⟨clearCacheStore σ.store, σ.vstate⟩ ⟨3, [1000, 1000]⟩
      hu hne hv hc hf
    by_cases hb : cfg.fallbackToBundled = true
    · rw [if_pos hb]
      exact base.2.1 (Or.inl rfl) hb
    · rw [if_neg hb]
      exact base.2.2 (Or.inl rfl) (by simpa using hb)

/-- Witness for C10: the cache written at time 0 is gone at `24h + 1ms`. -/
theorem c10_cache_expiry_witness :
    getCachedGames 86400001 exStoreCache = (none, exStore0) ∧
    fetchCatalog [exB] (fun _ _ => .netError) 86400001
        ⟨some ("https://x.y/c".toList), true, true⟩ exStCache =
      (.ok (bundledResult [exB]), ⟨exStore0, freshVS⟩, ⟨3, [1000, 1000]⟩) := by
  constructor
  · exact c10_cache_expiry.1 [exG] 0 86400001 exStoreCache rfl rfl
      (by decide)
  · have h := c10_cache_expiry.2 [exB] 86400001
      ⟨some ("https://x.y/c".toList), true, true⟩ ("https://x.y/c".toList)
      exStCache [exG] 0 rfl rfl rfl rfl rfl (by decide)
    simpa using h

/-! ### C2 — atomic catalog validation -/

/-- The 5-entry payload of the spec example: entry #3 (index 2) lacks
`title`. -/
def gs5Ex : List JsGameInput :=
  [.obj okRawEx, .obj okRawEx, .obj noTitleRawEx, .obj okRawEx, .obj okRawEx]

/-- Validating an entry with a missing required field fails before any
regex/sanitizer state is touched — independently of the validator state. -/
theorem validateGame_missing_title (vs : ValidatorState) :
    validateGame vs (.obj noTitleRawEx) =
      ({ isValid := false,
         errors := ["Missing required field: title".toList],
         sanitized := none }, vs) := rfl

/-- In every run, the third per-entry result of `gs5Ex` is the concrete
missing-title failure. -/
theorem noTitle_invalid_mem (vs : ValidatorState) :
    ({ isValid := false,
       errors := ["Missing required field: title".toList],
       sanitized := none } : GameValidation) ∈ entryResults vs gs5Ex := by
  simp only [gs5Ex, entryResults, validateGame_missing_title]
  simp [List.mem_cons]

/-- `validateCatalog` rejects `gs5Ex` from every validator state. -/
theorem catalog5_invalid (vs : ValidatorState) :
    ((validateCatalog vs (.arr gs5Ex)).1).isValid = false := by
  have herr := catalogLoop_errors_of_invalid gs5Ex vs 0 _
    (noTitle_invalid_mem vs) rfl
  have hempty : ((catalogLoop vs 0 gs5Ex).2.1).isEmpty = false := by
    rcases h : (catalogLoop vs 0 gs5Ex).2.1 with _ | ⟨a, l⟩
    · exact absurd h herr
    · rfl
  simpa [validateCatalog, gs5Ex] using hempty

/-- C2: validation is atomic per catalog.  (1) Whenever the per-entry
validation of some position fails in the threaded run, the whole batch
comes back `isValid = false`.  (2) When every fetched body fails catalog
validation (from any validator state), the orchestrator never returns a
`source="remote"` result — the subset of valid entries is discarded and
the call enters the fallback chain. -/
theorem c2_atomic_validation :
    (∀ (vs : ValidatorState) (gs : List JsGameInput) (i : Nat)
       (hi : i < (entryResults vs gs).length),
        gs.length ≤ 1000 →
        ((entryResults vs gs).get ⟨i, hi⟩).isValid = false →
        ((validateCatalog vs (.arr gs)).1).isValid = false) ∧
    (∀ (bundled : List Game) (net : Net) (now : Nat)
       (cfg : RemoteCatalogConfig) (u : List Char) (σ : ServiceState)
       (badGs : List JsGameInput),
        cfg.url = some u → u.isEmpty = false → isValidUrl u = true →
        (∀ vs, ((validateCatalog vs (.arr badGs)).1).isValid = false) →
        (∀ et k, net et k =
          .resp 200 (some ("application/json".toList)) none
            (some (.arr badGs))) →
        ∀ (r : RemoteCatalogResult) (σ2 : ServiceState) (tr2 : FetchTrace),
          fetchCatalog bundled net now cfg σ = (.ok r, σ2, tr2) →
          r.source ≠ CatalogSource.remote) := by
  constructor
  · intro vs gs i hi hlen hinv
    have hmem : (entryResults vs gs).get ⟨i, hi⟩ ∈ entryResults vs gs :=
      List.get_mem _ _ _
    have herr := catalogLoop_errors_of_invalid gs vs 0 _ hmem hinv
    have hempty : ((catalogLoop vs 0 gs).2.1).isEmpty = false := by
      rcases h : (catalogLoop vs 0 gs).2.1 with _ | ⟨a, l⟩
      · exact absurd h herr
      · rfl
    have hlt : ¬(gs.length > 1000) := Nat.not_lt.mpr hlen
    simpa [validateCatalog, hlt] using hempty
  · intro bundled net now cfg u σ badGs hu hne hv hbad hnet r σ2 tr2 heq
    rcases hgc : getCachedGames now σ.store with ⟨cached, st1⟩
    have hatt : ∀ (k : Nat) (st : ServiceState),
        attemptFetch net (jsStrOpt st1.etagStored) now k st =
        (.error .schemaFailed,
         { st with vstate := (validateCatalog st.vstate (.arr badGs)).2 }) := by
      intro k st
      unfold attemptFetch
      rw [hnet]
      simp [hbad st.vstate]
      decide
    have hretry : fetchRemoteCatalogWithRetry net (jsStrOpt st1.etagStored)
        now ⟨st1, σ.vstate⟩ =
        (.error .schemaFailed,
         { store := st1,
           vstate := (validateCatalog (validateCatalog
             (validateCatalog σ.vstate (.arr badGs)).2 (.arr badGs)).2
             (.arr badGs)).2 }, ⟨3, [1000, 1000]⟩) := by
      simp [fetchRemoteCatalogWithRetry, maxRetryAttempts, retryAux,
        retryDelayMs, hatt]
    have base := fetchCatalog_after_fetch_failure bundled net now cfg u σ
      cached st1 .schemaFailed _ _ hu hne hv hgc hretry
    cases cached with
    | none =>
        by_cases hb : cfg.fallbackToBundled = true
        · rw [base.2.1 (Or.inl rfl) hb] at heq
          injection heq with h1 h2
          injection h1 with h1
          rw [← h1]
          intro hsrc
          simp [bundledResult] at hsrc
        · rw [base.2.2 (Or.inl rfl) (by simpa using hb)] at heq
          exact absurd heq (by simp)
    | some gs =>
        by_cases hnil : gs = []
        · subst hnil
          by_cases hb : cfg.fallbackToBundled = true
          · rw [base.2.1 (Or.inr rfl) hb] at heq
            injection heq with h1 h2
            injection h1 with h1
            rw [← h1]
            intro hsrc
            simp [bundledResult] at hsrc
          · rw [base.2.2 (Or.inr rfl) (by simpa using hb)] at heq
            exact absurd heq (by simp)
        · rw [base.1 gs rfl hnil] at heq
          injection heq with h1 h2
          injection h1 with h1
          rw [← h1]
          intro hsrc
          simp at hsrc

/-- A server that always returns the 5-entry payload with the missing
title. -/
def netBadEx : Net := fun _ _ =>
  .resp 200 (some ("application/json".toList)) none (some (.arr gs5Ex))

/-- Witness for C2: the 5-entry payload with entry #3 lacking `title` is
rejected as a whole batch, and against a server always serving it the
orchestrator falls back to the bundled catalog (never `remote`). -/
theorem c2_atomic_validation_witness :
    ((validateCatalog freshVS (.arr gs5Ex)).1).isValid = false ∧
    (bundledResult [exB]).source ≠ CatalogSource.remote := by
  constructor
  · exact c2_atomic_validation.1 freshVS gs5Ex 2
      (by rw [entryResults_length]; decide) (by decide) (by decide)
  · exact c2_atomic_validation.2 [exB] netBadEx 0
      ⟨some ("https://x.y/c".toList), true, true⟩ ("https://x.y/c".toList)
      exSt0 gs5Ex rfl rfl rfl catalog5_invalid (fun et k => rfl)
      (bundledResult [exB]) exSt0 ⟨3, [1000, 1000]⟩ rfl

/-! ### C3 — bundled data is NOT validated -/

/-- A bundled catalog whose sole entry has an unsafe title. -/
def exUnsafeBundled : List Game :=
  [{ exG with title := "javascript:x".toList }]

/-- C3 counterexample: with no URL configured, `fetchCatalog` returns the
bundled array exactly as shipped — even though that very array FAILS
`validateCatalog` (its title matches an unsafe pattern).  The bundled
catalog therefore does not pass through the Validator/Sanitizer. -/
theorem c3_counterexample :
    fetchCatalog exUnsafeBundled netFailEx 0 ⟨none, true, true⟩ exSt0 =
      (.ok (bundledResult exUnsafeBundled), exSt0, ⟨0, []⟩) ∧
    ((validateCatalog freshVS (catalogToRaw exUnsafeBundled)).1).isValid =
      false :=
  ⟨rfl, rfl⟩

/-- C3 amended: every `source="bundled"` result returns the bundled
`games.json` array as-is (a bare cast), with no validation or
sanitization applied — only remote data passes through
`validateCatalog`. -/
theorem c3_amended_bundled_as_is (bundled : List Game) (net : Net)
    (now : Nat) (cfg : RemoteCatalogConfig) (σ : ServiceState)
    (r : RemoteCatalogResult) (σ2 : ServiceState) (tr : FetchTrace)
    (h : fetchCatalog bundled net now cfg σ = (.ok r, σ2, tr))
    (hs : r.source = .bundled) :
    r.games = bundled := by
  unfold fetchCatalog at h
  repeat'
    first
      | split at h
      | dsimp only at h
  all_goals
    first
      | (injection h with h1 h2; injection h1 with h1; subst h1;
         first
           | rfl
           | simp at hs)
      | (injection h with h1 h2; injection h1)

/-- Witness for C3 (amended): applied on the no-URL path. -/
theorem c3_amended_bundled_as_is_witness :
    (bundledResult [exB]).games = [exB] :=
  c3_amended_bundled_as_is [exB] netFailEx 0 ⟨none, true, true⟩ exSt0
    (bundledResult [exB]) exSt0 ⟨0, []⟩ rfl rfl

/-! ### C6 — unsafe entries and the stateful regex slip -/

/-- A fully valid entry whose `disabledReason` carries an unsafe value:
it is silently dropped (no error) but leaves the `javascript:` pattern's
`lastIndex` at 11. -/
def disRawEx : RawGame :=
  { okRawEx with disabledReason := .strV ("javascript:zz".toList) }

/-- An entry whose raw `id` is the unsafe string `javascript:x`. -/
def idJsRawEx : RawGame :=
  { okRawEx with id := .strV ("javascript:x".toList) }

/-- C6 (code bug): an entry whose raw string field matches an unsafe
pattern can be ACCEPTED and kept.  In isolation the `javascript:x` id is
rejected (conjunct 2), but in the catalog `[disRawEx, idJsRawEx]` —
validated in one fresh run — the stale `lastIndex = 11` left by entry 0's
silently-dropped `disabledReason` makes the `javascript:` test miss
entry 1's id: both entries validate, the whole catalog comes back
`isValid = true`, and the unsafe raw id is kept in the sanitized
output. -/
theorem c6_unsafe_entry_kept :
    (jsTestG (litM ("javascript:".toList)) ("javascript:x".toList) 0).1 =
      true ∧
    ((validateGame freshVS (.obj idJsRawEx)).1).isValid = false ∧
    (entryResults freshVS [.obj disRawEx, .obj idJsRawEx]).map
        (fun v => v.isValid) = [true, true] ∧
    ((validateCatalog freshVS
        (.arr [.obj disRawEx, .obj idJsRawEx])).1).isValid = true ∧
    ((validateCatalog freshVS
        (.arr [.obj disRawEx, .obj idJsRawEx])).1).sanitized =
      some [exG, { exG with id := "javascript:x".toList }] :=
  ⟨rfl, rfl, rfl, rfl, rfl⟩

/-! ### C9 — validateCatalog is not deterministic across calls -/

/-- An entry carrying `javascript:` both in `id` (checked, erroring) and
in `disabledReason` (silently dropped, leaving stale regex state). -/
def dualRawEx : RawGame :=
  { okRawEx with
    id := .strV ("javascript:x".toList)
    disabledReason := .strV ("javascript:zz".toList) }

/-- C9 (code bug): two successive `validateCatalog` calls on the SAME
input disagree.  The first call (fresh state) rejects the catalog
(unsafe id); it leaves the `javascript:` pattern's `lastIndex` at 11 via
the silently-dropped `disabledReason`, so the second call misses the id's
unsafe pattern and ACCEPTS the catalog, keeping the raw `javascript:x`
id.  The validator is thus neither pure nor deterministic. -/
theorem c9_nondeterministic_validation :
    ((validateCatalog freshVS (.arr [.obj dualRawEx])).1).isValid =
      false ∧
    ((validateCatalog (validateCatalog freshVS (.arr [.obj dualRawEx])).2
        (.arr [.obj dualRawEx])).1).isValid = true ∧
    ((validateCatalog (validateCatalog freshVS (.arr [.obj dualRawEx])).2
        (.arr [.obj dualRawEx])).1).sanitized =
      some [{ exG with id := "javascript:x".toList }] :=
  ⟨rfl, rfl, rfl⟩

/-! ### C5 — HTTP 304 conditional-fetch handling -/

/-- C5: (1) with a stored etag sent and the server answering 304 on the
first attempt, `fetchCatalog` returns exactly the previously cached games
tagged `source="remote"` (and re-caches them); (2) with no cached catalog
every 304 attempt is treated as a fetch failure, the call enters the
fallback chain, and — the bundled catalog being non-empty — it never
returns an empty or undefined games list: it yields the bundled games or
raises. -/
theorem c5_not_modified :
    (∀ (bundled : List Game) (net : Net) (now : Nat)
       (cfg : RemoteCatalogConfig) (u : List Char) (σ : ServiceState)
       (gs : List Game) (ts : Nat) (etag : List Char)
       (ct eh : Option (List Char)) (bd : Option JsCatalogInput),
        cfg.url = some u → u.isEmpty = false → isValidUrl u = true →
        σ.store.cacheBlob = some gs → σ.store.cacheTimestamp = some ts →
        ¬(now - ts > cacheExpiryMs) →
        σ.store.etagStored = some etag → etag.isEmpty = false →
        net (some etag) 1 = .resp 304 ct eh bd →
        fetchCatalog bundled net now cfg σ =
          (.ok { games := gs, source := .remote, fetchTime := 0,
                 fromCache := false, etagMeta := some etag },
           ⟨cacheGamesStore now gs σ.store, σ.vstate⟩, ⟨1, []⟩)) ∧
    (∀ (bundled : List Game) (net : Net) (now : Nat)
       (cfg : RemoteCatalogConfig) (u : List Char) (σ : ServiceState)
       (ct eh : Option (List Char) → Nat → Option (List Char))
       (bd : Option (List Char) → Nat → Option JsCatalogInput),
        cfg.url = some u → u.isEmpty = false → isValidUrl u = true →
        σ.store.cacheBlob = none →
        (∀ et k, net et k = .resp 304 (ct et k) (eh et k) (bd et k)) →
        bundled ≠ [] →
        (cfg.fallbackToBundled = true →
           fetchCatalog bundled net now cfg σ =
             (.ok (bundledResult bundled), σ, ⟨3, [1000, 1000]⟩) ∧
           (bundledResult bundled).games ≠ []) ∧
        (cfg.fallbackToBundled = false →
           fetchCatalog bundled net now cfg σ =
             (.error .noCachedFor304, σ, ⟨3, [1000, 1000]⟩))) := by
  constructor
  · intro bundled net now cfg u σ gs ts etag ct eh bd hu hne hv hblob hts
      hexp hetag hetagne hnet
    have hc : getCachedGames now σ.store = (some gs, σ.store) := by
      unfold getCachedGames
      rw [hblob, hts]
      simp [hexp]
    have hjs : jsStrOpt σ.store.etagStored = some etag := by
      rw [hetag]
      simp [jsStrOpt, hetagne]
    have hatt : attemptFetch net (some etag) now 1 ⟨σ.store, σ.vstate⟩ =
        (.ok gs, ⟨σ.store, σ.vstate⟩) := by
      unfold attemptFetch
      rw [hnet]
      simp [hc]
    have hretry : fetchRemoteCatalogWithRetry net (some etag) now
        ⟨σ.store, σ.vstate⟩ = (.ok gs, ⟨σ.store, σ.vstate⟩, ⟨1, []⟩) := by
      simp [fetchRemoteCatalogWithRetry, maxRetryAttempts, retryAux, hatt]
    unfold fetchCatalog
    rw [hu]
    simp [hne, hv, hc, hjs, hretry]
  · intro bundled net now cfg u σ ct eh bd hu hne hv hblob hnet hbne
    have hc : getCachedGames now σ.store = (none, σ.store) := by
      unfold getCachedGames
      rw [hblob]
    have hatt : ∀ k : Nat,
        attemptFetch net (jsStrOpt σ.store.etagStored) now k
          ⟨σ.store, σ.vstate⟩ =
        (.error .noCachedFor304, ⟨σ.store, σ.vstate⟩) := by
      intro k
      unfold attemptFetch
      rw [hnet]
      simp [hc]
    have hretry : fetchRemoteCatalogWithRetry net
        (jsStrOpt σ.store.etagStored) now ⟨σ.store, σ.vstate⟩ =
        (.error .noCachedFor304, ⟨σ.store, σ.vstate⟩, ⟨3, [1000, 1000]⟩) := by
      simp [fetchRemoteCatalogWithRetry, maxRetryAttempts, retryAux,
        retryDelayMs, hatt]
    have base := fetchCatalog_after_fetch_failure bundled net now cfg u σ
      none σ.store .noCachedFor304 ⟨σ.store, σ.vstate⟩ ⟨3, [1000, 1000]⟩
      hu hne hv hc hretry
    constructor
    · intro hb
      refine ⟨?_, ?_⟩
      · simpa using base.2.1 (Or.inl rfl) hb
      · simpa [bundledResult] using hbne
    · intro hb
      simpa using base.2.2 (Or.inl rfl) hb

/-- Storage with cached games from time 0 and a stored etag `"v0"`. -/
def exStoreEtag : Store := ⟨some [exG], some 0, some ("v0".toList), none⟩

/-- State with cache and etag. -/
def exStEtag : ServiceState := ⟨exStoreEtag, freshVS⟩

/-- Witness for C5 at concrete states: a 304 with a warm cache returns the
cached games as `source="remote"`; a 304 with an empty cache falls back
to the (non-empty) bundled catalog. -/
theorem c5_not_modified_witness :
    fetchCatalog [exB] net304Ex 0
        ⟨some ("https://x.y/c".toList), true, true⟩ exStEtag =
      (.ok { games := [exG], source := .remote, fetchTime := 0,
             fromCache := false, etagMeta := some ("v0".toList) },
       ⟨cacheGamesStore 0 [exG] exStoreEtag, freshVS⟩, ⟨1, []⟩) ∧
    (fetchCatalog [exB] net304Ex 0
        ⟨some ("https://x.y/c".toList), true, true⟩ exSt0 =
      (.ok (bundledResult [exB]), exSt0, ⟨3, [1000, 1000]⟩) ∧
     (bundledResult [exB]).games ≠ []) := by
  constructor
  · exact c5_not_modified.1 [exB] net304Ex 0
      ⟨some ("https://x.y/c".toList), true, true⟩ ("https://x.y/c".toList)
      exStEtag [exG] 0 ("v0".toList) none none none rfl rfl rfl rfl rfl
      (by decide) rfl rfl rfl
  · exact (c5_not_modified.2 [exB] net304Ex 0
      ⟨some ("https://x.y/c".toList), true, true⟩ ("https://x.y/c".toList)
      exSt0 (fun _ _ => none) (fun _ _ => none) (fun _ _ => none)
      rfl rfl rfl rfl (fun et k => rfl) (List.cons_ne_nil _ _)).1 rfl

/-! ### C7 — URL validation -/

/-- An entry whose play URL contains a `..` traversal sequence that the
URL parser resolves away. -/
def travRawEx : RawGame :=
  { okRawEx with url := .strV ("https://game.example/a/../../etc".toList) }

/-- C7 counterexample: the raw play URL
`https://game.example/a/../../etc` does contain `..` in its path, yet the
entry is ACCEPTED: `new URL` resolves the dot segments before the
traversal check, so validation keeps the entry with the normalized URL
`https://game.example/etc`. -/
theorem c7_counterexample :
    containsSub ("..".toList)
      ("https://game.example/a/../../etc".toList) = true ∧
    ((validateGame freshVS (.obj travRawEx)).1).isValid = true ∧
    ((validateGame freshVS (.obj travRawEx)).1).sanitized.map
        (fun p => p.url) =
      some (some ("https://game.example/etc".toList)) :=
  ⟨rfl, rfl, rfl⟩

/-- C7 amended: URL validation rejects entries whose URL still contains
`..` in host or path after parsing (e.g. a `..` inside the hostname);
`https://localhost/x` is rejected as loopback; the non-HTTPS catalog URL
`http://insecure.example/catalog.json` is rejected by `isValidUrl` before
any network call (zero fetch attempts).  URLs whose `..` path segments
are resolved away by the parser are not caught by the traversal check. -/
theorem c7_amended_url_rejections :
    (∀ (ds : List Nat) (s : List Char) (u : UrlRec),
        parseUrl (jsTrim s) = some u →
        (containsSub ("..".toList) u.hostname ||
         containsSub ("..".toList) u.pathname) = true →
        ((validateAndSanitizeUrl ds (.strV s)).1).isValid = false) ∧
    ((validateAndSanitizeUrl (List.replicate 5 0)
        (.strV ("https://localhost/x".toList))).1 =
      ⟨false, ["Localhost URLs are not allowed".toList], none⟩) ∧
    (isValidUrl ("http://insecure.example/catalog.json".toList) = false ∧
     fetchCatalog [exB] netFailEx 0
         ⟨some ("http://insecure.example/catalog.json".toList), true, true⟩
         exSt0 =
       (.ok (bundledResult [exB]), exSt0, ⟨0, []⟩)) := by
  refine ⟨?_, rfl, rfl, rfl⟩
  intro ds s u hp htr
  dsimp only [validateAndSanitizeUrl]
  split
  · rfl
  · split
    · rfl
    · split
      · rfl
      · rename_i u' heq
        rw [hp] at heq
        injection heq with heq
        subst heq
        split
        · rfl
        · split
          · rfl
          · split
            · rfl
            · rfl

/-- Witness for C7 (amended, conjunct 1): `https://a..b/x` keeps `..` in
its hostname after parsing and is rejected. -/
theorem c7_amended_url_rejections_witness :
    ((validateAndSanitizeUrl (List.replicate 5 0)
        (.strV ("https://a..b/x".toList))).1).isValid = false :=
  c7_amended_url_rejections.1 (List.replicate 5 0)
    ("https://a..b/x".toList)
    ⟨"https:".toList, "a..b".toList, [], "/x".toList, [], [], true⟩
    rfl rfl

end GameLauncher
